import Mathlib

/-!
Shallow embedding of the STIMPL interpreter of stimpl/runtime.py together
with proofs about the specified behaviour of the evaluator.  The repository
holds two copies of runtime.py: the importable package file
stimpl/runtime.py, which is embedded here, and the nested duplicate
stimpl-main/stimpl/runtime.py, which diverges in a few operator cases; the
specification (design notes) adopts the first, stricter variant, and the
divergences are recorded in the result notes next to the affected theorems.
-/

namespace Stimpl

/-- Runtime type tags of STIMPL values.  Modelled from the spec: the file
stimpl/types.py is not under src; per the spec a runtime type carries no data
beyond its tag and two types are equal iff their tags match. -/
inductive Ty
  | integer
  | floatingPoint
  | string
  | boolean
  | unit
deriving DecidableEq

/-- Python runtime values manipulated by the interpreter: the five STIMPL
value shapes plus the Python constant None, which the evaluator uses as the
absent value.  Python floats are modelled as rationals; no claim settled
below depends on floating point rounding. -/
inductive Value
  | vNone
  | vInt (n : Int)
  | vFloat (q : ℚ)
  | vStr (s : String)
  | vBool (b : Bool)
deriving DecidableEq

/-- Error kinds raised by the interpreter.  Modelled from the spec: the file
stimpl/errors.py is not under src; the spec error taxonomy lists a syntax
kind (InterpSyntaxError), a type kind (InterpTypeError) and an arithmetic
kind (InterpMathError).  hostErr stands for an exception of the host Python
runtime itself (for example ordering an int against a str), and outOfFuel is
an artefact of the fuel-indexed embedding, not a program error.  The
human-readable message strings are elided; only the kind is kept. -/
inductive InterpErr
  | syntaxErr
  | typeErr
  | mathErr
  | hostErr
  | outOfFuel
deriving DecidableEq

/-- Interpreter state from stimpl/runtime.py: the classes State and
EmptyState form a linked chain of bindings ending in the empty state, here a
single recursive variant type as the spec design notes describe.  The stored
type slot is an Option Ty because the While case of evaluate can produce the
Python value None in the type position of a result triple, and Assign stores
that slot unchanged. -/
inductive State
  | empty
  | node (name : String) (v : Value) (t : Option Ty) (next : State)
deriving DecidableEq

/-- Embeds State.get_value of stimpl/runtime.py: walk the chain and return
the nearest binding for the name, or none when the chain is exhausted (the
EmptyState get_value returns None). -/
def State.get_value : State → String → Option (Value × Option Ty)
  | .empty, _ => none
  | .node n v t rest, name => if n = name then some (v, t) else rest.get_value name

/-- Embeds State.set_value of stimpl/runtime.py: prepend a new binding whose
next state is the receiver; no existing node is altered. -/
def State.set_value (s : State) (name : String) (v : Value) (t : Option Ty) : State :=
  .node name v t s

/-- Numeric view of a Python value for arithmetic and comparisons: Python
bool is a subclass of int, so vBool counts as 0 or 1. -/
def Value.toRat? : Value → Option ℚ
  | .vInt n => some (n : ℚ)
  | .vFloat q => some q
  | .vBool b => some (if b then 1 else 0)
  | _ => none

/-- Integer view of a Python value: int and bool only. -/
def Value.toInt? : Value → Option Int
  | .vInt n => some n
  | .vBool b => some (if b then 1 else 0)
  | _ => none

/-- Test for the Python constant None. -/
def Value.isNone : Value → Bool
  | .vNone => true
  | _ => false

/-- Test for the Python isinstance check against (int, float, str): every
value shape except None passes it, because Python bool is a subclass of
int. -/
def Value.isNumStr : Value → Bool
  | .vNone => false
  | _ => true

/-- Python truthiness bool(v): None and every zero or empty value is falsy. -/
def truthy : Value → Bool
  | .vNone => false
  | .vInt n => decide (n ≠ 0)
  | .vFloat q => decide (q ≠ 0)
  | .vStr s => decide (s ≠ "")
  | .vBool b => b

/-- Python equality on the values above: strings compare as strings, numbers
(including bool) compare numerically, None equals only None, and any other
cross-shape comparison is unequal. -/
def pyEq (a b : Value) : Bool :=
  match a, b with
  | .vStr x, .vStr y => decide (x = y)
  | _, _ =>
    match a.toRat?, b.toRat? with
    | some x, some y => decide (x = y)
    | _, _ => a.isNone && b.isNone

/-- Python strict order a < b: defined on two strings or two numbers, a host
TypeError (none) otherwise. -/
def pyLt (a b : Value) : Option Bool :=
  match a, b with
  | .vStr x, .vStr y => some (decide (x < y))
  | _, _ =>
    match a.toRat?, b.toRat? with
    | some x, some y => some (decide (x < y))
    | _, _ => none

/-- Python order a <= b, defined like pyLt. -/
def pyLe (a b : Value) : Option Bool :=
  match a, b with
  | .vStr x, .vStr y => some (decide (x < y) || decide (x = y))
  | _, _ =>
    match a.toRat?, b.toRat? with
    | some x, some y => some (decide (x ≤ y))
    | _, _ => none

/-- Python order a > b, defined like pyLt. -/
def pyGt (a b : Value) : Option Bool :=
  pyLt b a

/-- Python order a >= b, defined like pyLt. -/
def pyGe (a b : Value) : Option Bool :=
  pyLe b a

/-- Python a + b on the values the Add case can reach: two strings
concatenate, two int-like values give an int, any other numeric pair gives a
float, and everything else is a host TypeError. -/
def pyAdd (a b : Value) : Option Value :=
  match a, b with
  | .vStr x, .vStr y => some (.vStr (x ++ y))
  | _, _ =>
    match a.toInt?, b.toInt? with
    | some x, some y => some (.vInt (x + y))
    | _, _ =>
      match a.toRat?, b.toRat? with
      | some x, some y => some (.vFloat (x + y))
      | _, _ => none

/-- Python a - b: int when both operands are int-like, float for any other
numeric pair, host TypeError otherwise. -/
def pySub (a b : Value) : Option Value :=
  match a.toInt?, b.toInt? with
  | some x, some y => some (.vInt (x - y))
  | _, _ =>
    match a.toRat?, b.toRat? with
    | some x, some y => some (.vFloat (x - y))
    | _, _ => none

/-- Python a * b on numeric operands, which is all the Multiply case can
reach after its type check. -/
def pyMul (a b : Value) : Option Value :=
  match a.toInt?, b.toInt? with
  | some x, some y => some (.vInt (x * y))
  | _, _ =>
    match a.toRat?, b.toRat? with
    | some x, some y => some (.vFloat (x * y))
    | _, _ => none

/-- Python floor division a // b: ints floor to an int, other numeric pairs
floor to a float. -/
def pyFloorDiv (a b : Value) : Option Value :=
  match a.toInt?, b.toInt? with
  | some x, some y => some (.vInt (Int.fdiv x y))
  | _, _ =>
    match a.toRat?, b.toRat? with
    | some x, some y => some (.vFloat ((x / y).floor : ℤ))
    | _, _ => none

/-- Python true division a / b: always a float on numeric operands. -/
def pyTrueDiv (a b : Value) : Option Value :=
  match a.toRat?, b.toRat? with
  | some x, some y => some (.vFloat (x / y))
  | _, _ => none

/-- Python left and right: the value of the left operand when it is falsy,
else the value of the right operand. -/
def pyAnd (a b : Value) : Value :=
  if truthy a then b else a

/-- Python left or right: the value of the left operand when it is truthy,
else the value of the right operand. -/
def pyOr (a b : Value) : Value :=
  if truthy a then a else b

/-- Expression nodes of stimpl/expression.py as consumed by evaluate: the
unit literal Ren, the four value literals, Print, Sequence and Program,
Variable (carrying only its name), Assign (the Variable wrapper of the
target reduced to its name), the four arithmetic nodes, the three boolean
nodes, If, the six comparisons and While.  whileIter is an internal node of
the embedding only: it models the running Python while loop of the While
case after the one-time Boolean check of the condition type. -/
inductive Expr
  | ren
  | intLit (n : Int)
  | floatLit (q : ℚ)
  | strLit (s : String)
  | boolLit (b : Bool)
  | print (e : Expr)
  | sequence (es : List Expr)
  | program (es : List Expr)
  | var (name : String)
  | assign (name : String) (e : Expr)
  | add (l r : Expr)
  | sub (l r : Expr)
  | mul (l r : Expr)
  | div (l r : Expr)
  | and (l r : Expr)
  | or (l r : Expr)
  | not (e : Expr)
  | ifE (c t f : Expr)
  | lt (l r : Expr)
  | lte (l r : Expr)
  | gt (l r : Expr)
  | gte (l r : Expr)
  | eq (l r : Expr)
  | ne (l r : Expr)
  | whileLoop (c b : Expr)
  | whileIter (c b : Expr)

/-- Result of one evaluation: Python returns the triple (value, type, state)
or raises; the type slot is an Option because the While case can put the
Python value None there. -/
abbrev EvalResult := Except InterpErr (Value × Option Ty × State)

/-- Lift of a partial Python primitive: a missing result is an exception of
the host runtime. -/
def hostLift (o : Option Value) : Except InterpErr Value :=
  match o with
  | some v => .ok v
  | none => .error .hostErr

/-- Lift of a partial Python comparison, as hostLift. -/
def hostLiftB (o : Option Bool) : Except InterpErr Bool :=
  match o with
  | some b => .ok b
  | none => .error .hostErr

/-- Fuel-indexed shallow embedding of evaluate from stimpl/runtime.py.
Every recursive call runs on one unit less fuel, so the function is
structurally recursive and computable; with fuel 0 the artificial outOfFuel
value is returned.  The print side effect only writes a line to stdout and
is elided: the Print case returns the operand triple exactly as the source
does.  The Sequence loop is embedded by recursing on the tail as a shorter
sequence, and the Program case shares the Sequence branch as in the source
match statement.  The While case checks the condition type once and then
enters whileIter, whose iterations re-evaluate the condition with no type
check, mirroring the Python while statement. -/
def evaluate : Nat → Expr → State → EvalResult
  | 0, _, _ => .error .outOfFuel
  | fuel + 1, expr, state =>
    match expr with
    | .ren => .ok (.vNone, some .unit, state)
    | .intLit n => .ok (.vInt n, some .integer, state)
    | .floatLit q => .ok (.vFloat q, some .floatingPoint, state)
    | .strLit s => .ok (.vStr s, some .string, state)
    | .boolLit b => .ok (.vBool b, some .boolean, state)
    | .print e => do
      let (v, t, s₁) ← evaluate fuel e state
      .ok (v, t, s₁)
    | .sequence [] => .ok (.vNone, some .unit, state)
    | .sequence (e :: rest) => do
      let (v, t, s₁) ← evaluate fuel e state
      match rest with
      | [] => .ok (v, t, s₁)
      | _ :: _ => evaluate fuel (.sequence rest) s₁
    | .program es => evaluate fuel (.sequence es) state
    | .var name =>
      match state.get_value name with
      | none => .error .syntaxErr
      | some (v, t) => .ok (v, t, state)
    | .assign name e => do
      let (v, t, s₁) ← evaluate fuel e state
      let varT : Option Ty :=
        match s₁.get_value name with
        | some (_, t₀) => t₀
        | none => none
      if t ≠ varT ∧ varT ≠ none then .error .typeErr
      else .ok (v, t, s₁.set_value name v t)
    | .add l r => do
      let (lv, lty, s₁) ← evaluate fuel l state
      let (rv, rty, s₂) ← evaluate fuel r s₁
      if lty ≠ rty then .error .typeErr
      else
        match lty with
        | some .integer | some .string | some .floatingPoint => do
          let v ← hostLift (pyAdd lv rv)
          .ok (v, lty, s₂)
        | _ => .error .typeErr
    | .sub l r => do
      let (lv, lty, s₁) ← evaluate fuel l state
      let (rv, rty, s₂) ← evaluate fuel r s₁
      if (lty = some .integer ∨ lty = some .floatingPoint) ∧
          (rty = some .integer ∨ rty = some .floatingPoint) then do
        let v ← hostLift (pySub lv rv)
        .ok (v,
          if lty = some .integer ∧ rty = some .integer then some .integer
          else some .floatingPoint, s₂)
      else .error .typeErr
    | .mul l r => do
      let (lv, lty, s₁) ← evaluate fuel l state
      let (rv, rty, s₂) ← evaluate fuel r s₁
      if (lty = some .integer ∧ rty = some .integer) ∨
          (lty = some .floatingPoint ∧ rty = some .floatingPoint) then do
        let v ← hostLift (pyMul lv rv)
        .ok (v,
          if lty = some .integer ∧ rty = some .integer then some .integer
          else some .floatingPoint, s₂)
      else .error .typeErr
    | .div l r => do
      let (lv, lty, s₁) ← evaluate fuel l state
      let (rv, rty, s₂) ← evaluate fuel r s₁
      if (lty = some .integer ∨ lty = some .floatingPoint) ∧
          (rty = some .integer ∨ rty = some .floatingPoint) then
        if pyEq rv (.vInt 0) = true then .error .mathErr
        else do
          let v ← hostLift
            (if lty = some .integer ∧ rty = some .integer then pyFloorDiv lv rv
             else pyTrueDiv lv rv)
          .ok (v, if lty = some .integer then lty else rty, s₂)
      else .error .typeErr
    | .and l r => do
      let (lv, lty, s₁) ← evaluate fuel l state
      let (rv, rty, s₂) ← evaluate fuel r s₁
      if lty ≠ rty then .error .typeErr
      else
        match lty with
        | some .boolean => .ok (pyAnd lv rv, lty, s₂)
        | _ => .error .typeErr
    | .or l r => do
      let (lv, lty, s₁) ← evaluate fuel l state
      let (rv, rty, s₂) ← evaluate fuel r s₁
      if lty = some .boolean ∧ rty = some .boolean then
        .ok (pyOr lv rv, some .boolean, s₂)
      else .error .typeErr
    | .not e => do
      let (v, t, s₁) ← evaluate fuel e state
      match t with
      | some .boolean => .ok (.vBool (!truthy v), some .boolean, s₁)
      | _ => .error .typeErr
    | .ifE c tBr fBr => do
      let (cv, ct, s₁) ← evaluate fuel c state
      match ct with
      | some .boolean =>
        if truthy cv = true then evaluate fuel tBr s₁
        else evaluate fuel fBr s₁
      | _ => .error .typeErr
    | .lt l r => do
      let (lv, lty, s₁) ← evaluate fuel l state
      let (rv, rty, s₂) ← evaluate fuel r s₁
      if lty ≠ rty then .error .typeErr
      else
        match lty with
        | some .integer | some .boolean | some .string | some .floatingPoint => do
          let b ← hostLiftB (pyLt lv rv)
          .ok (.vBool b, some .boolean, s₂)
        | some .unit => .ok (.vBool false, some .boolean, s₂)
        | none => .error .typeErr
    | .lte l r => do
      let (lv, _, s₁) ← evaluate fuel l state
      let (rv, _, s₂) ← evaluate fuel r s₁
      let b ←
        if lv.isNone = true then pure true
        else if rv.isNone = true then pure false
        else hostLiftB (pyLe lv rv)
      .ok (.vBool b, some .boolean, s₂)
    | .gt l r => do
      let (lv, _, s₁) ← evaluate fuel l state
      let (rv, _, s₂) ← evaluate fuel r s₁
      let b ←
        if lv.isNumStr = true ∧ rv.isNumStr = true then hostLiftB (pyGt lv rv)
        else if lv.isNone = true ∨ rv.isNone = true then
          pure (if lv.isNone = true then false else true)
        else .error .typeErr
      .ok (.vBool b, some .boolean, s₂)
    | .gte l r => do
      let (lv, _, s₁) ← evaluate fuel l state
      let (rv, _, s₂) ← evaluate fuel r s₁
      let b ←
        if lv.isNumStr = true ∧ rv.isNumStr = true then hostLiftB (pyGe lv rv)
        else if lv.isNone = true ∨ rv.isNone = true then
          pure (if lv.isNone = true ∧ rv.isNone = true then true
                else if lv.isNone = true then false else true)
        else .error .typeErr
      .ok (.vBool b, some .boolean, s₂)
    | .eq l r => do
      let (lv, _, s₁) ← evaluate fuel l state
      let (rv, _, s₂) ← evaluate fuel r s₁
      .ok (.vBool (pyEq lv rv), some .boolean, s₂)
    | .ne l r => do
      let (lv, _, s₁) ← evaluate fuel l state
      let (rv, _, s₂) ← evaluate fuel r s₁
      .ok (.vBool (!pyEq lv rv), some .boolean, s₂)
    | .whileLoop c b => do
      let (cv, ct, s₁) ← evaluate fuel c state
      match ct with
      | some .boolean =>
        if truthy cv = true then evaluate fuel (.whileIter c b) s₁
        else .ok (.vNone, none, s₁)
      | _ => .error .typeErr
    | .whileIter c b => do
      let (v, t, s₁) ← evaluate fuel b state
      let (cv, _, s₂) ← evaluate fuel c s₁
      if truthy cv = true then evaluate fuel (.whileIter c b) s₂
      else .ok (v, t, s₂)


/-- Reduction of the Except monad bind on a success, used to push evaluation
hypotheses through the do blocks of evaluate. -/
theorem bindOk {α β : Type} (a : α) (k : α → Except InterpErr β) :
    Bind.bind (Except.ok a) k = k a := rfl

/-- Reduction of the Except monad bind on an error: the error propagates. -/
theorem bindErr {α β : Type} (e : InterpErr) (k : α → Except InterpErr β) :
    Bind.bind (Except.error e : Except InterpErr α) k = Except.error e := rfl

/-- One-step unfolding of the Variable case of evaluate. -/
theorem evaluate_var (f : Nat) (name : String) (s : State) :
    evaluate (f + 1) (.var name) s =
      match s.get_value name with
      | none => .error .syntaxErr
      | some (v, t) => .ok (v, t, s) := rfl

/-- One-step unfolding of the Assign case of evaluate. -/
theorem evaluate_assign (f : Nat) (name : String) (e : Expr) (s : State) :
    evaluate (f + 1) (.assign name e) s = (do
      let (v, t, s₁) ← evaluate f e s
      let varT : Option Ty :=
        match s₁.get_value name with
        | some (_, t₀) => t₀
        | none => none
      if t ≠ varT ∧ varT ≠ none then .error .typeErr
      else .ok (v, t, s₁.set_value name v t)) := rfl

/-- One-step unfolding of the Subtract case of evaluate. -/
theorem evaluate_sub (f : Nat) (l r : Expr) (s : State) :
    evaluate (f + 1) (.sub l r) s = (do
      let (lv, lty, s₁) ← evaluate f l s
      let (rv, rty, s₂) ← evaluate f r s₁
      if (lty = some .integer ∨ lty = some .floatingPoint) ∧
          (rty = some .integer ∨ rty = some .floatingPoint) then do
        let v ← hostLift (pySub lv rv)
        .ok (v,
          if lty = some .integer ∧ rty = some .integer then some .integer
          else some .floatingPoint, s₂)
      else .error .typeErr) := rfl

/-- One-step unfolding of the Multiply case of evaluate. -/
theorem evaluate_mul (f : Nat) (l r : Expr) (s : State) :
    evaluate (f + 1) (.mul l r) s = (do
      let (lv, lty, s₁) ← evaluate f l s
      let (rv, rty, s₂) ← evaluate f r s₁
      if (lty = some .integer ∧ rty = some .integer) ∨
          (lty = some .floatingPoint ∧ rty = some .floatingPoint) then do
        let v ← hostLift (pyMul lv rv)
        .ok (v,
          if lty = some .integer ∧ rty = some .integer then some .integer
          else some .floatingPoint, s₂)
      else .error .typeErr) := rfl

/-- One-step unfolding of the Divide case of evaluate. -/
theorem evaluate_div (f : Nat) (l r : Expr) (s : State) :
    evaluate (f + 1) (.div l r) s = (do
      let (lv, lty, s₁) ← evaluate f l s
      let (rv, rty, s₂) ← evaluate f r s₁
      if (lty = some .integer ∨ lty = some .floatingPoint) ∧
          (rty = some .integer ∨ rty = some .floatingPoint) then
        if pyEq rv (.vInt 0) = true then .error .mathErr
        else do
          let v ← hostLift
            (if lty = some .integer ∧ rty = some .integer then pyFloorDiv lv rv
             else pyTrueDiv lv rv)
          .ok (v, if lty = some .integer then lty else rty, s₂)
      else .error .typeErr) := rfl

/-- One-step unfolding of the Or case of evaluate. -/
theorem evaluate_or (f : Nat) (l r : Expr) (s : State) :
    evaluate (f + 1) (.or l r) s = (do
      let (lv, lty, s₁) ← evaluate f l s
      let (rv, rty, s₂) ← evaluate f r s₁
      if lty = some .boolean ∧ rty = some .boolean then
        .ok (pyOr lv rv, some .boolean, s₂)
      else .error .typeErr) := rfl

/-- One-step unfolding of the Lt case of evaluate. -/
theorem evaluate_lt (f : Nat) (l r : Expr) (s : State) :
    evaluate (f + 1) (.lt l r) s = (do
      let (lv, lty, s₁) ← evaluate f l s
      let (rv, rty, s₂) ← evaluate f r s₁
      if lty ≠ rty then .error .typeErr
      else
        match lty with
        | some .integer | some .boolean | some .string | some .floatingPoint => do
          let b ← hostLiftB (pyLt lv rv)
          .ok (.vBool b, some .boolean, s₂)
        | some .unit => .ok (.vBool false, some .boolean, s₂)
        | none => .error .typeErr) := rfl

/-- One-step unfolding of the While case of evaluate: the condition type is
checked Boolean once, then the running loop is entered only on a truthy
condition value. -/
theorem evaluate_whileLoop (f : Nat) (c b : Expr) (s : State) :
    evaluate (f + 1) (.whileLoop c b) s = (do
      let (cv, ct, s₁) ← evaluate f c s
      match ct with
      | some .boolean =>
        if truthy cv = true then evaluate f (.whileIter c b) s₁
        else .ok (.vNone, none, s₁)
      | _ => .error .typeErr) := rfl

/-- One-step unfolding of the running While loop: evaluate the body, then
re-evaluate the condition with no type check, and continue on truthiness of
its value alone. -/
theorem evaluate_whileIter (f : Nat) (c b : Expr) (s : State) :
    evaluate (f + 1) (.whileIter c b) s = (do
      let (v, t, s₁) ← evaluate f b s
      let (cv, _, s₂) ← evaluate f c s₁
      if truthy cv = true then evaluate f (.whileIter c b) s₂
      else .ok (v, t, s₂)) := rfl

/-- Claim C1, counterexample: the two operands of this Eq node evaluate to an
Integer and a String, two different runtime types, yet evaluate returns the
Boolean value false instead of failing with a type error (the Eq case of
runtime.py compares the values with no type check at all). -/
theorem c1_counterexample :
    evaluate 1 (.intLit 1) .empty = .ok (.vInt 1, some .integer, .empty) ∧
    evaluate 1 (.strLit "a") .empty = .ok (.vStr "a", some .string, .empty) ∧
    evaluate 2 (.eq (.intLit 1) (.strLit "a")) .empty
      = .ok (.vBool false, some .boolean, .empty) :=
  ⟨rfl, rfl, rfl⟩

/-- Claim C1, amended: only the Lt case checks that the two operand runtime
types are equal and fails with a type error on a mismatch; the other five
comparisons (Lte, Gt, Gte, Eq, Ne) perform no such check and can return a
Boolean result for operands of different runtime types. -/
theorem c1_lt_mismatch_type_error (f : Nat) (l r : Expr) (s s₁ s₂ : State)
    (v₁ v₂ : Value) (t₁ t₂ : Ty)
    (h₁ : evaluate f l s = .ok (v₁, some t₁, s₁))
    (h₂ : evaluate f r s₁ = .ok (v₂, some t₂, s₂))
    (h₃ : t₁ ≠ t₂) :
    evaluate (f + 1) (.lt l r) s = .error .typeErr := by
  simp only [evaluate_lt, h₁, h₂, bindOk]
  simp [h₃]

/-- Witness for the amended claim C1 at a concrete input: Lt applied to an
Integer and a String fails with a type error. -/
theorem c1_witness :
    evaluate 2 (.lt (.intLit 1) (.strLit "a")) .empty = .error .typeErr :=
  c1_lt_mismatch_type_error 1 (.intLit 1) (.strLit "a") .empty .empty .empty
    (.vInt 1) (.vStr "a") .integer .string rfl rfl (by decide)

/-- Claim C2: an empty Sequence evaluates to the absent value with type Unit
and the unchanged input environment; Program shares the Sequence branch; a
one-element Sequence returns exactly the triple of its element; and a longer
Sequence evaluates its head against the input environment and the rest
against the environment the head produced, so the sub-expressions run left
to right, each against the environment of its predecessor, and the overall
result is the triple of the last one. -/
theorem c2_sequence_semantics :
    (∀ (f : Nat) (s : State),
      evaluate (f + 1) (.sequence []) s = .ok (.vNone, some .unit, s)) ∧
    (∀ (f : Nat) (es : List Expr) (s : State),
      evaluate (f + 1) (.program es) s = evaluate f (.sequence es) s) ∧
    (∀ (f : Nat) (e : Expr) (s : State),
      evaluate (f + 1) (.sequence [e]) s = evaluate f e s) ∧
    (∀ (f : Nat) (e : Expr) (rest : List Expr) (s : State), rest ≠ [] →
      evaluate (f + 1) (.sequence (e :: rest)) s
        = Except.bind (evaluate f e s) (fun x => evaluate f (.sequence rest) x.2.2)) := by
  refine ⟨fun f s => rfl, fun f es s => rfl, ?_, ?_⟩
  · intro f e s
    show Bind.bind (evaluate f e s) _ = _
    cases evaluate f e s with
    | error err => rfl
    | ok x => obtain ⟨v, t, s₁⟩ := x; rfl
  · intro f e rest s h
    cases rest with
    | nil => exact absurd rfl h
    | cons r rs =>
      show Bind.bind (evaluate f e s) _ = _
      cases evaluate f e s with
      | error err => rfl
      | ok x => obtain ⟨v, t, s₁⟩ := x; rfl

/-- Witness for claim C2 at concrete inputs: a two-element sequence returns
the triple of its last element, and the empty sequence returns the absent
value with type Unit and the unchanged environment. -/
theorem c2_witness :
    evaluate 3 (.sequence [.intLit 1, .strLit "a"]) .empty
      = .ok (.vStr "a", some .string, .empty) ∧
    evaluate 1 (.sequence []) .empty = .ok (.vNone, some .unit, .empty) := by
  constructor
  · rw [show (3 : Nat) = 2 + 1 from rfl,
      c2_sequence_semantics.2.2.2 2 (.intLit 1) [.strLit "a"] .empty
        (List.cons_ne_nil _ _)]
    rfl
  · exact c2_sequence_semantics.1 0 .empty

/-- Claim C3, counterexample: a While whose condition is initially false
returns the absent value with an absent type slot (the Python value None in
the type position), which is a different result from the absent value with
the type Unit that the claim states. -/
theorem c3_counterexample :
    evaluate 3 (.whileLoop (.boolLit false) (.print (.intLit 1))) .empty
      = .ok (.vNone, none, .empty) ∧
    (Except.ok (.vNone, none, .empty) : EvalResult)
      ≠ .ok (.vNone, some .unit, .empty) := by
  refine ⟨rfl, ?_⟩
  simp

/-- Claim C3, amended: when the condition of a While initially evaluates to
the Boolean value false, the body is never evaluated (the first part below
holds for every body expression, including failing ones) and evaluate
returns the absent value with an absent type slot, together with the
environment the condition produced; when the body runs, the value and type
of the result are those of the last body evaluation and the environment is
the one produced by the final re-evaluation of the condition. -/
theorem c3_while_result :
    (∀ (f : Nat) (c b : Expr) (s s₁ : State),
      evaluate f c s = .ok (.vBool false, some .boolean, s₁) →
      evaluate (f + 1) (.whileLoop c b) s = .ok (.vNone, none, s₁)) ∧
    (∀ (f : Nat) (c b : Expr) (s s₁ s₂ s₃ : State) (v cv : Value) (t t₂ : Option Ty),
      evaluate (f + 1) c s = .ok (.vBool true, some .boolean, s₁) →
      evaluate f b s₁ = .ok (v, t, s₂) →
      evaluate f c s₂ = .ok (cv, t₂, s₃) →
      truthy cv = false →
      evaluate (f + 1 + 1) (.whileLoop c b) s = .ok (v, t, s₃)) := by
  constructor
  · intro f c b s s₁ h₁
    simp only [evaluate_whileLoop, h₁, bindOk]
    simp [truthy]
  · intro f c b s s₁ s₂ s₃ v cv t t₂ h₁ h₂ h₃ h₄
    have h₅ : truthy (Value.vBool true) = true := rfl
    simp only [evaluate_whileLoop, evaluate_whileIter, h₁, h₂, h₃, bindOk, h₅, h₄]
    simp

/-- Witness for the amended claim C3 at a concrete input: a loop on a Boolean
variable that the body sets to false runs its body once and returns the body
triple with the final environment. -/
theorem c3_witness :
    evaluate 4 (.whileLoop (.var "x") (.assign "x" (.boolLit false)))
        (.node "x" (.vBool true) (some .boolean) .empty)
      = .ok (.vBool false, some .boolean,
          .node "x" (.vBool false) (some .boolean)
            (.node "x" (.vBool true) (some .boolean) .empty)) :=
  c3_while_result.2 2 (.var "x") (.assign "x" (.boolLit false)) _ _ _ _ _ _ _ _
    rfl rfl rfl rfl

/-- Claim C4, counterexample: Subtract applied to an Integer and a
FloatingPoint operand does not fail; it subtracts the values and labels the
result FloatingPoint, because the Subtract case only requires each operand
type to be numeric, not that the two types agree. -/
theorem c4_counterexample :
    evaluate 1 (.intLit 1) .empty = .ok (.vInt 1, some .integer, .empty) ∧
    evaluate 1 (.floatLit (1 / 2)) .empty
      = .ok (.vFloat (1 / 2), some .floatingPoint, .empty) ∧
    evaluate 2 (.sub (.intLit 1) (.floatLit (1 / 2))) .empty
      = .ok (.vFloat (1 / 2), some .floatingPoint, .empty) := by
  refine ⟨rfl, rfl, ?_⟩
  have e₁ : evaluate 1 (.intLit 1) .empty
      = .ok (.vInt 1, some .integer, .empty) := rfl
  have e₂ : evaluate 1 (.floatLit (1 / 2)) .empty
      = .ok (.vFloat (1 / 2), some .floatingPoint, .empty) := rfl
  show evaluate (1 + 1) (.sub (.intLit 1) (.floatLit (1 / 2))) .empty = _
  simp only [evaluate_sub, e₁, e₂, bindOk]
  norm_num [pySub, Value.toInt?, Value.toRat?, hostLift, bindOk]
  intro h
  exact absurd h (by simp)

/-- Claim C4, amended: of the three operators named by the claim only
Multiply rejects mixed Integer and FloatingPoint operands with a type error;
Subtract and Divide accept the mix (Subtract labels the result
FloatingPoint, Divide divides and labels the result with the type of the
Integer operand). -/
theorem c4_mul_mixed_type_error (f : Nat) (l r : Expr) (s s₁ s₂ : State)
    (v₁ v₂ : Value) (t₁ t₂ : Ty)
    (h₁ : evaluate f l s = .ok (v₁, some t₁, s₁))
    (h₂ : evaluate f r s₁ = .ok (v₂, some t₂, s₂))
    (h₃ : (t₁ = .integer ∧ t₂ = .floatingPoint) ∨ (t₁ = .floatingPoint ∧ t₂ = .integer)) :
    evaluate (f + 1) (.mul l r) s = .error .typeErr := by
  rcases h₃ with ⟨ha, hb⟩ | ⟨ha, hb⟩ <;> subst ha <;> subst hb <;>
    simp only [evaluate_mul, h₁, h₂, bindOk] <;> simp

/-- Witness for the amended claim C4 at a concrete input: Multiply applied to
an Integer and a FloatingPoint fails with a type error. -/
theorem c4_witness :
    evaluate 2 (.mul (.intLit 2) (.floatLit (1 / 2))) .empty = .error .typeErr :=
  c4_mul_mixed_type_error 1 (.intLit 2) (.floatLit (1 / 2)) .empty .empty .empty
    (.vInt 2) (.vFloat (1 / 2)) .integer .floatingPoint rfl rfl (Or.inl ⟨rfl, rfl⟩)

/-- Claim C5: the Or case evaluates both operands unconditionally (second
part: an error from the right operand propagates even when the left operand
is the Boolean true, so the right side is never skipped) and fails with a
type error whenever either operand type is not Boolean (first part). -/
theorem c5_or_requires_booleans :
    (∀ (f : Nat) (l r : Expr) (s s₁ s₂ : State) (v₁ v₂ : Value) (t₁ t₂ : Option Ty),
      evaluate f l s = .ok (v₁, t₁, s₁) →
      evaluate f r s₁ = .ok (v₂, t₂, s₂) →
      (t₁ ≠ some .boolean ∨ t₂ ≠ some .boolean) →
      evaluate (f + 1) (.or l r) s = .error .typeErr) ∧
    (∀ (f : Nat) (l r : Expr) (s s₁ : State) (v₁ : Value) (t₁ : Option Ty)
      (err : InterpErr),
      evaluate f l s = .ok (v₁, t₁, s₁) →
      evaluate f r s₁ = .error err →
      evaluate (f + 1) (.or l r) s = .error err) := by
  constructor
  · intro f l r s s₁ s₂ v₁ v₂ t₁ t₂ h₁ h₂ h₃
    simp only [evaluate_or, h₁, h₂, bindOk]
    rw [if_neg]
    tauto
  · intro f l r s s₁ v₁ t₁ err h₁ h₂
    simp only [evaluate_or, h₁, h₂, bindOk, bindErr]

/-- Witness for claim C5 at concrete inputs: Or with an Integer left operand
fails with a type error, and Or with a true Boolean left operand still
evaluates its right operand, whose unbound-variable error propagates. -/
theorem c5_witness :
    evaluate 2 (.or (.intLit 1) (.boolLit true)) .empty = .error .typeErr ∧
    evaluate 2 (.or (.boolLit true) (.var "nope")) .empty = .error .syntaxErr :=
  ⟨c5_or_requires_booleans.1 1 (.intLit 1) (.boolLit true) .empty .empty .empty
      (.vInt 1) (.vBool true) (some .integer) (some .boolean) rfl rfl
      (Or.inl (by decide)),
    c5_or_requires_booleans.2 1 (.boolLit true) (.var "nope") .empty .empty
      (.vBool true) (some .boolean) .syntaxErr rfl rfl⟩

/-- Claim C6: assigning to a name already bound in the environment produced
by the right hand side fails with a type error when the bound type differs
from the new value type (no binding is made, the whole evaluation errors),
and rebinds the name to the new value and type when they agree, returning
the value, its type and the extended environment. -/
theorem c6_assign_fixed_type :
    (∀ (f : Nat) (name : String) (e : Expr) (s s₁ : State) (v v₀ : Value) (t t₀ : Ty),
      evaluate f e s = .ok (v, some t, s₁) →
      s₁.get_value name = some (v₀, some t₀) →
      t ≠ t₀ →
      evaluate (f + 1) (.assign name e) s = .error .typeErr) ∧
    (∀ (f : Nat) (name : String) (e : Expr) (s s₁ : State) (v v₀ : Value) (t t₀ : Ty),
      evaluate f e s = .ok (v, some t, s₁) →
      s₁.get_value name = some (v₀, some t₀) →
      t = t₀ →
      evaluate (f + 1) (.assign name e) s
        = .ok (v, some t, s₁.set_value name v (some t))) := by
  constructor
  · intro f name e s s₁ v v₀ t t₀ h₁ h₂ h₃
    simp only [evaluate_assign, h₁, bindOk, h₂]
    simp [h₃]
  · intro f name e s s₁ v v₀ t t₀ h₁ h₂ h₃
    subst h₃
    simp only [evaluate_assign, h₁, bindOk, h₂]
    simp

/-- Witness for claim C6 at concrete inputs: rebinding an Integer variable to
a String fails with a type error, and rebinding it to another Integer
extends the environment with the new binding. -/
theorem c6_witness :
    evaluate 2 (.assign "x" (.strLit "s"))
        (.node "x" (.vInt 5) (some .integer) .empty) = .error .typeErr ∧
    evaluate 2 (.assign "x" (.intLit 6))
        (.node "x" (.vInt 5) (some .integer) .empty)
      = .ok (.vInt 6, some .integer,
          .node "x" (.vInt 6) (some .integer)
            (.node "x" (.vInt 5) (some .integer) .empty)) :=
  ⟨c6_assign_fixed_type.1 1 "x" (.strLit "s") _ _ (.vStr "s") (.vInt 5)
      .string .integer rfl rfl (by decide),
    c6_assign_fixed_type.2 1 "x" (.intLit 6) _ _ (.vInt 6) (.vInt 5)
      .integer .integer rfl rfl rfl⟩

/-- Claim C7: Divide with two Integer or two FloatingPoint operands whose
right value equals zero under Python equality fails with the arithmetic
error; the zero test comes before the division, so the conclusion holds for
every left operand value. -/
theorem c7_div_zero_math_error (f : Nat) (l r : Expr) (s s₁ s₂ : State)
    (v₁ v₂ : Value) (t₁ t₂ : Ty)
    (h₁ : evaluate f l s = .ok (v₁, some t₁, s₁))
    (h₂ : evaluate f r s₁ = .ok (v₂, some t₂, s₂))
    (h₃ : (t₁ = .integer ∧ t₂ = .integer) ∨ (t₁ = .floatingPoint ∧ t₂ = .floatingPoint))
    (h₄ : pyEq v₂ (.vInt 0) = true) :
    evaluate (f + 1) (.div l r) s = .error .mathErr := by
  rcases h₃ with ⟨ha, hb⟩ | ⟨ha, hb⟩ <;> subst ha <;> subst hb <;>
    simp only [evaluate_div, h₁, h₂, bindOk, h₄] <;> simp

/-- Witness for claim C7 at a concrete input: dividing one by the Integer
zero fails with the arithmetic error. -/
theorem c7_witness :
    evaluate 2 (.div (.intLit 1) (.intLit 0)) .empty = .error .mathErr :=
  c7_div_zero_math_error 1 (.intLit 1) (.intLit 0) .empty .empty .empty
    (.vInt 1) (.vInt 0) .integer .integer rfl rfl (Or.inl ⟨rfl, rfl⟩) rfl

/-- Claim C8: Divide on two Integer operands with a nonzero divisor returns
an Integer typed result whose value is the floor quotient of the operand
integers, computed in the integer representation, not a floating point
quotient. -/
theorem c8_div_int_representation (f : Nat) (l r : Expr) (s s₁ s₂ : State)
    (a b : Int)
    (h₁ : evaluate f l s = .ok (.vInt a, some .integer, s₁))
    (h₂ : evaluate f r s₁ = .ok (.vInt b, some .integer, s₂))
    (h₃ : b ≠ 0) :
    evaluate (f + 1) (.div l r) s = .ok (.vInt (Int.fdiv a b), some .integer, s₂) := by
  have hz : pyEq (.vInt b) (.vInt 0) = false := by
    simp [pyEq, Value.toRat?, h₃]
  simp only [evaluate_div, h₁, h₂, bindOk, hz]
  simp [pyFloorDiv, Value.toInt?, hostLift, bindOk]

/-- Witness for claim C8 at a concrete input: seven divided by two gives the
Integer three. -/
theorem c8_witness :
    evaluate 2 (.div (.intLit 7) (.intLit 2)) .empty
      = .ok (.vInt 3, some .integer, .empty) :=
  c8_div_int_representation 1 (.intLit 7) (.intLit 2) .empty .empty .empty
    7 2 rfl rfl (by decide)

/-- Claim C9: evaluating a Variable whose name is unbound fails with the
syntax kind error (read before assignment), and evaluating a bound Variable
returns the bound value and type together with the input environment
unchanged. -/
theorem c9_variable_lookup :
    (∀ (f : Nat) (name : String) (s : State),
      s.get_value name = none →
      evaluate (f + 1) (.var name) s = .error .syntaxErr) ∧
    (∀ (f : Nat) (name : String) (s : State) (v : Value) (t : Option Ty),
      s.get_value name = some (v, t) →
      evaluate (f + 1) (.var name) s = .ok (v, t, s)) := by
  constructor
  · intro f name s h
    simp only [evaluate_var, h]
  · intro f name s v t h
    simp only [evaluate_var, h]

/-- Witness for claim C9 at concrete inputs: reading a never assigned name
from the empty environment errors, and reading a bound name returns its
binding with the same environment. -/
theorem c9_witness :
    evaluate 1 (.var "never_set") .empty = .error .syntaxErr ∧
    evaluate 1 (.var "y") (.node "y" (.vInt 7) (some .integer) .empty)
      = .ok (.vInt 7, some .integer, .node "y" (.vInt 7) (some .integer) .empty) :=
  ⟨c9_variable_lookup.1 0 "never_set" .empty rfl,
    c9_variable_lookup.2 0 "y" (.node "y" (.vInt 7) (some .integer) .empty)
      (.vInt 7) (some .integer) rfl⟩

/-- Claim C10: the Boolean check of a While condition applies only to its
first evaluation.  First part: when the re-evaluated condition has a
non-Boolean type and a falsy value, the loop ends normally with the last
body triple and no type error.  Second part: when the re-evaluated condition
has a non-Boolean type and a truthy value, the loop keeps running (the body
is evaluated again) and still no type error is raised. -/
theorem c10_while_cond_unchecked :
    (∀ (f : Nat) (c b : Expr) (s s₁ s₂ s₃ : State) (v cv : Value) (t t₂ : Option Ty),
      evaluate (f + 1) c s = .ok (.vBool true, some .boolean, s₁) →
      evaluate f b s₁ = .ok (v, t, s₂) →
      evaluate f c s₂ = .ok (cv, t₂, s₃) →
      t₂ ≠ some .boolean →
      truthy cv = false →
      evaluate (f + 1 + 1) (.whileLoop c b) s = .ok (v, t, s₃)) ∧
    (∀ (f : Nat) (c b : Expr) (s s₁ s₂ s₃ s₄ s₅ : State)
      (v₁ cv₂ v₂ cv₃ : Value) (t₁ t₂ t₃ t₄ : Option Ty),
      evaluate (f + 1 + 1) c s = .ok (.vBool true, some .boolean, s₁) →
      evaluate (f + 1) b s₁ = .ok (v₁, t₁, s₂) →
      evaluate (f + 1) c s₂ = .ok (cv₂, t₂, s₃) →
      t₂ ≠ some .boolean →
      truthy cv₂ = true →
      evaluate f b s₃ = .ok (v₂, t₃, s₄) →
      evaluate f c s₄ = .ok (cv₃, t₄, s₅) →
      truthy cv₃ = false →
      evaluate (f + 1 + 1 + 1) (.whileLoop c b) s = .ok (v₂, t₃, s₅)) := by
  have hbt : truthy (Value.vBool true) = true := rfl
  constructor
  · intro f c b s s₁ s₂ s₃ v cv t t₂ h₁ h₂ h₃ _ h₅
    simp only [evaluate_whileLoop, evaluate_whileIter, h₁, h₂, h₃, bindOk, hbt, h₅]
    simp
  · intro f c b s s₁ s₂ s₃ s₄ s₅ v₁ cv₂ v₂ cv₃ t₁ t₂ t₃ t₄ h₁ h₂ h₃ _ h₅ h₆ h₇ h₈
    simp only [evaluate_whileLoop, evaluate_whileIter, h₁, h₂, h₃, h₆, h₇,
      bindOk, hbt, h₅, h₈]
    simp

/-- Witness for claim C10 at a concrete input: the condition is an If that
yields a Boolean on the first iteration and an Integer afterwards; the loop
keeps running on the truthy Integer five and stops on the falsy Integer
zero, with no type error. -/
theorem c10_witness :
    evaluate 7
        (.whileLoop
          (.ifE (.var "b") (.boolLit true)
            (.ifE (.var "c") (.intLit 5) (.intLit 0)))
          (.ifE (.var "b") (.assign "b" (.boolLit false))
            (.assign "c" (.boolLit false))))
        (.node "b" (.vBool true) (some .boolean)
          (.node "c" (.vBool true) (some .boolean) .empty))
      = .ok (.vBool false, some .boolean,
          .node "c" (.vBool false) (some .boolean)
            (.node "b" (.vBool false) (some .boolean)
              (.node "b" (.vBool true) (some .boolean)
                (.node "c" (.vBool true) (some .boolean) .empty)))) :=
  c10_while_cond_unchecked.2 4
    (.ifE (.var "b") (.boolLit true) (.ifE (.var "c") (.intLit 5) (.intLit 0)))
    (.ifE (.var "b") (.assign "b" (.boolLit false)) (.assign "c" (.boolLit false)))
    _ _ _ _ _ _ _ _ _ _ _ _ _ _
    rfl rfl rfl (by decide) rfl rfl rfl rfl

end Stimpl
